import Mathlib

/-!
Shallow embedding of the laserArtboardGenerator layout engines.

Real-valued dimensions (mm), coordinates and font sizes are modelled as
exact rationals; the SVG documents the generators build are modelled as
records of the numeric and string attributes the source sets.  The grid
engine's palette lookup `colorArray[colorIndex]` can fail with an
IndexError in the source, so its embedding returns an `Option`.
-/

namespace LaserArtboard

/-- An SVG TSpan as the generators build it: its (repeated) x coordinate,
relative vertical offset `dy`, and its text content. -/
structure TSpan where
  x : ℚ
  dy : ℚ
  text : String
deriving DecidableEq

/-- An SVG Text element as emitted by the corner and grid generators:
anchor position, fill color, rendered font size, alignment attributes and
the list of contained tspans (a Python `None` tspan renders to nothing and
is dropped). -/
structure TextElem where
  x : ℚ
  y : ℚ
  fill : String
  fontSize : ℚ
  text_anchor : String
  dominant_baseline : String
  tspans : List TSpan
deriving DecidableEq

/-- An SVG rectangle. -/
structure Rect where
  x : ℚ
  y : ℚ
  width : ℚ
  height : ℚ
  fill : String
  stroke : String
deriving DecidableEq

/-- The SVG document built by `create_svg_corners`: canvas size, background
rectangle and the text elements. -/
structure SVG where
  width : ℚ
  height : ℚ
  rect : Rect
  texts : List TextElem
deriving DecidableEq

/-- Python truthiness of an optional string: `None` and `""` are falsy. -/
def strTruthy : Option String → Bool
  | none => false
  | some s => s != ""

/-- The four corner placements handled by the `writeSvg` dispatch loops. -/
inductive CornerVariant
  | TopLeft | TopRight | BottomLeft | BottomRight
deriving DecidableEq

/-- The argument tuple a `writeSvg` dispatcher passes to its drawing function
for one corner: anchor point, text anchor, dominant baseline, lower flag. -/
structure CornerCall where
  x : ℚ
  y : ℚ
  text_anchor : String
  dominant_baseline : String
  lower_corner : Bool
deriving DecidableEq

namespace CornerLabelGenerator

/-- Embedding of `create_svg_corners` (src/corner_label_generator.py,
lines 11-71). -/
def create_svg_corners (width height x y fontSize : ℚ)
    (text_anchor dominant_baseline : String) (lower_corner : Bool)
    (label_line1 : String) (label_line2 : Option String) : SVG :=
  if lower_corner && strTruthy label_line2 then
    let fs := fontSize - 2
    { width := width, height := height,
      rect := ⟨0, 0, width, height, "white", "red"⟩,
      texts := [⟨x, y, "blue", fs, text_anchor, dominant_baseline,
        [⟨x, 1.2, label_line2.getD ""⟩, ⟨x, -1.2 * fs, label_line1⟩]⟩] }
  else
    let fs := if strTruthy label_line2 then fontSize - 2 else fontSize
    { width := width, height := height,
      rect := ⟨0, 0, width, height, "white", "red"⟩,
      texts := [⟨x, y, "blue", fs, text_anchor, dominant_baseline,
        ⟨x, 1.2, label_line1⟩ ::
          (if strTruthy label_line2 then [⟨x, 1.2 * fs, label_line2.getD ""⟩]
           else [])⟩] }

/-- The arguments `writeSvg` passes to `create_svg_corners` for each corner
variant (src/corner_label_generator.py, lines 103-122). -/
def cornerCallArgs (width height x_percent_from_edge y_percent_from_edge : ℚ) :
    CornerVariant → CornerCall :=
  let x_edge_distance := min width height * x_percent_from_edge
  let y_edge_distance := min width height * y_percent_from_edge
  fun v =>
    match v with
    | .TopLeft => ⟨x_edge_distance, y_edge_distance, "start", "hanging", false⟩
    | .TopRight => ⟨width - x_edge_distance, y_edge_distance, "end", "hanging", false⟩
    | .BottomLeft => ⟨x_edge_distance, height - y_edge_distance, "start", "central", true⟩
    | .BottomRight =>
        ⟨width - x_edge_distance, height - y_edge_distance, "end", "central", true⟩

/-- One iteration of `writeSvg`'s loop: the SVG document generated for a
given corner variant. -/
def writeSvgCorner (width height xFrac yFrac fontSize : ℚ)
    (label_line1 : String) (label_line2 : Option String) (v : CornerVariant) : SVG :=
  let c := cornerCallArgs width height xFrac yFrac v
  create_svg_corners width height c.x c.y fontSize c.text_anchor
    c.dominant_baseline c.lower_corner label_line1 label_line2

end CornerLabelGenerator

namespace PlaqueGenerator

/-- The set of characters with descenders (src/plaqueGenerator.py, line 9). -/
def descender_characters : List Char := ['g', 'j', 'p', 'q', 'y']

/-- Embedding of `has_descenders` (src/plaqueGenerator.py, lines 8-10). -/
def has_descenders (label_line : String) : Bool :=
  label_line.data.any (fun c => descender_characters.contains c)

/-- Embedding of `calculate_plaque_dimensions` (src/plaqueGenerator.py,
lines 12-32); returns `(plaque_width, plaque_height)`. -/
def calculate_plaque_dimensions (fontSize : ℚ) (label_line1 : String)
    (label_line2 : Option String) : ℚ × ℚ :=
  let num_lines : ℚ := match label_line2 with | none => 1 | some _ => 2
  let max_label_length : ℕ := max label_line1.length (label_line2.getD "").length
  let text_width := (max_label_length : ℚ) * fontSize * 0.55
  let text_height := fontSize * num_lines
  let padding_x := fontSize * 0.1
  let padding_y := fontSize * 0.1
  (text_width + 2 * padding_x, text_height + 2 * padding_y)

/-- A quarter-circle corner arc: path start point, radius, end point. -/
structure Arc where
  mx : ℚ
  my : ℚ
  r : ℚ
  ex : ℚ
  ey : ℚ
deriving DecidableEq

/-- A text element of the plaque drawing: the single-line branch sets `text`
directly, the two-line branch uses `tspans`. -/
structure PTextElem where
  x : ℚ
  y : ℚ
  fill : String
  fontSize : ℚ
  text_anchor : String
  dominant_baseline : String
  text : Option String
  tspans : List TSpan
deriving DecidableEq

/-- The SVG document built by `create_svg_plaque`. -/
structure PlaqueSVG where
  width : ℚ
  height : ℚ
  rect : Rect
  arcs : List Arc
  texts : List PTextElem
deriving DecidableEq

/-- Embedding of `create_svg_plaque` (src/plaqueGenerator.py, lines 35-127). -/
def create_svg_plaque (fontSize : ℚ) (label_line1 : String)
    (label_line2 : Option String) : PlaqueSVG :=
  let dims := calculate_plaque_dimensions fontSize label_line1 label_line2
  let plaque_width := dims.1
  let plaque_height := dims.2
  let artboard_width := plaque_width * 1.05
  let artboard_height := plaque_height * 1.05
  let plaque_x := (artboard_width - plaque_width) / 2
  let plaque_y := (artboard_height - plaque_height) / 2
  let corner_radius := plaque_height * 0.20
  let arcs : List Arc :=
    [⟨plaque_x, plaque_y + corner_radius, corner_radius,
        plaque_x + corner_radius, plaque_y⟩,
     ⟨plaque_x + plaque_width - corner_radius, plaque_y, corner_radius,
        plaque_x + plaque_width, plaque_y + corner_radius⟩,
     ⟨plaque_x + corner_radius, plaque_y + plaque_height, corner_radius,
        plaque_x, plaque_y + plaque_height - corner_radius⟩,
     ⟨plaque_x + plaque_width, plaque_y + plaque_height - corner_radius,
        corner_radius, plaque_x + plaque_width - corner_radius,
        plaque_y + plaque_height⟩]
  let rectangle : Rect :=
    ⟨plaque_x, plaque_y, plaque_width, plaque_height, "none", "red"⟩
  let texts : List PTextElem :=
    if strTruthy label_line2 then
      let line2 := label_line2.getD ""
      let y_offset : ℚ := if !(has_descenders line2) then 0.45 else 0.5
      [{ x := plaque_x + plaque_width / 2,
         y := plaque_y + 0.85 * (plaque_height / 2 - y_offset * fontSize),
         fill := "blue", fontSize := fontSize, text_anchor := "middle",
         dominant_baseline := "middle", text := none,
         tspans := [⟨plaque_x + plaque_width / 2, 1.2, label_line1⟩,
                    ⟨plaque_x + plaque_width / 2, 1 * fontSize, line2⟩] }]
    else
      let y_offset : ℚ := if has_descenders label_line1 then 0.05 else 0.1
      [{ x := plaque_x + plaque_width / 2,
         y := plaque_y + 0.85 * (plaque_height / 2 + y_offset * fontSize),
         fill := "blue", fontSize := fontSize, text_anchor := "middle",
         dominant_baseline := "middle", text := some label_line1,
         tspans := [] }]
  { width := artboard_width, height := artboard_height,
    rect := rectangle, arcs := arcs, texts := texts }

end PlaqueGenerator

namespace CornerLabelGeneratorGrid

/-- The fill palette (src/corner_label_generator_grid2.py, line 29). -/
def colorArray : List String := ["#0000FF", "#0096FF", "#00FFFF"]

/-- The text element built for one grid cell
(src/corner_label_generator_grid2.py, lines 46-58). -/
def gridCellText (label_x label_y fontSize : ℚ)
    (text_anchor dominant_baseline : String) (lower_corner : Bool)
    (label_line1 : String) (label_line2 : Option String) (fill : String) : TextElem :=
  if lower_corner && strTruthy label_line2 then
    ⟨label_x, label_y, fill, fontSize, text_anchor, dominant_baseline,
      [⟨label_x, 1.2, label_line2.getD ""⟩, ⟨label_x, -1.2 * fontSize, label_line1⟩]⟩
  else
    ⟨label_x, label_y, fill, fontSize, text_anchor, dominant_baseline,
      ⟨label_x, 1.2, label_line1⟩ ::
        (if strTruthy label_line2 then [⟨label_x, 1.2 * fontSize, label_line2.getD ""⟩]
         else [])⟩

/-- The (column, row) pairs visited by the nested loop, column outer,
row inner (src/corner_label_generator_grid2.py, lines 38-39). -/
def cellPairs (rows columns : ℕ) : List (ℕ × ℕ) :=
  (List.range columns).flatMap (fun column => (List.range rows).map (fun row => (column, row)))

/-- The loop body of `create_svg_corners_grid`: one text element per cell,
indexing `colorArray` by a running counter that is incremented every cell.
Returns `none` when the counter runs past the palette (the IndexError the
source raises at `colorArray[colorIndex]`). -/
def gridCellsFrom (width height x y fontSize : ℚ)
    (text_anchor dominant_baseline : String) (lower_corner : Bool)
    (label_line1 : String) (label_line2 : Option String) :
    List (ℕ × ℕ) → ℕ → Option (List TextElem)
  | [], _ => some []
  | (column, row) :: rest, colorIndex =>
    match colorArray.get? colorIndex with
    | none => none
    | some fill =>
      let label_x := x + width * (column : ℚ)
      let label_y := y + height * (row : ℚ)
      match gridCellsFrom width height x y fontSize text_anchor dominant_baseline
          lower_corner label_line1 label_line2 rest (colorIndex + 1) with
      | none => none
      | some ts =>
          some (gridCellText label_x label_y fontSize text_anchor dominant_baseline
            lower_corner label_line1 label_line2 fill :: ts)

/-- The SVG document built by `create_svg_corners_grid`. -/
structure GridSVG where
  width : ℚ
  height : ℚ
  rect : Rect
  texts : List TextElem
deriving DecidableEq

/-- Embedding of `create_svg_corners_grid`
(src/corner_label_generator_grid2.py, lines 8-67); `none` models the
IndexError raised when the palette index runs out of range. -/
def create_svg_corners_grid (rows columns : ℕ) (width height x y fontSize : ℚ)
    (text_anchor dominant_baseline : String) (lower_corner : Bool)
    (label_line1 : String) (label_line2 : Option String) : Option GridSVG :=
  let board_width := width * (columns : ℚ)
  let board_height := height * (rows : ℚ)
  match gridCellsFrom width height x y fontSize text_anchor dominant_baseline
      lower_corner label_line1 label_line2 (cellPairs rows columns) 0 with
  | none => none
  | some ts =>
      some { width := board_width, height := board_height,
             rect := ⟨0, 0, board_width, board_height, "white", "red"⟩,
             texts := ts }

/-- The arguments the grid `writeSvg` passes to `create_svg_corners_grid`
for each corner variant (src/corner_label_generator_grid2.py,
lines 105-116). -/
def gridCallArgs (width height x_percent_from_edge y_percent_from_edge : ℚ) :
    CornerVariant → CornerCall :=
  let x_start := min width height * x_percent_from_edge
  let y_start := min width height * y_percent_from_edge
  fun v =>
    match v with
    | .TopLeft => ⟨x_start, y_start, "start", "text-top", false⟩
    | .TopRight => ⟨width - x_start, y_start, "end", "text-top", false⟩
    | .BottomLeft => ⟨x_start, height - y_start, "start", "text-bottom", true⟩
    | .BottomRight => ⟨width - x_start, height - y_start, "end", "text-bottom", true⟩

/-- One iteration of the grid `writeSvg` loop: the document generated for a
given corner variant. -/
def writeSvgGrid (rows columns : ℕ) (width height fontSize : ℚ)
    (label_line1 : String) (label_line2 : Option String)
    (xFrac yFrac : ℚ) (v : CornerVariant) : Option GridSVG :=
  let c := gridCallArgs width height xFrac yFrac v
  create_svg_corners_grid rows columns width height c.x c.y fontSize
    c.text_anchor c.dominant_baseline c.lower_corner label_line1 label_line2

end CornerLabelGeneratorGrid

end LaserArtboard
namespace LaserArtboard

open CornerLabelGenerator PlaqueGenerator CornerLabelGeneratorGrid

/-- C1: writeSvg computes the inset distances as min(width, height) times the
x and y fractions and resolves each corner variant to the fixed anchor point
and (textAnchor, baseline, isLowerCorner) triple; the emitted document's
single text element carries exactly that anchor and alignment. -/
theorem C1_corner_dispatch (width height xFrac yFrac fontSize : ℚ)
    (l1 : String) (l2 : Option String) :
    cornerCallArgs width height xFrac yFrac .TopLeft =
      ⟨min width height * xFrac, min width height * yFrac, "start", "hanging", false⟩ ∧
    cornerCallArgs width height xFrac yFrac .TopRight =
      ⟨width - min width height * xFrac, min width height * yFrac, "end", "hanging", false⟩ ∧
    cornerCallArgs width height xFrac yFrac .BottomLeft =
      ⟨min width height * xFrac, height - min width height * yFrac, "start", "central", true⟩ ∧
    cornerCallArgs width height xFrac yFrac .BottomRight =
      ⟨width - min width height * xFrac, height - min width height * yFrac,
        "end", "central", true⟩ ∧
    ∀ v, (writeSvgCorner width height xFrac yFrac fontSize l1 l2 v).texts.map
        (fun t => (t.x, t.y, t.text_anchor, t.dominant_baseline)) =
      [((cornerCallArgs width height xFrac yFrac v).x,
        (cornerCallArgs width height xFrac yFrac v).y,
        (cornerCallArgs width height xFrac yFrac v).text_anchor,
        (cornerCallArgs width height xFrac yFrac v).dominant_baseline)] := by
  refine ⟨rfl, rfl, rfl, rfl, fun v => ?_⟩
  cases v <;> cases hb : strTruthy l2 <;>
    simp [writeSvgCorner, cornerCallArgs, create_svg_corners, hb]

/-- C2: for a two-line label in a lower corner the text run places line2
first at dy = 1.2 and line1 above it at dy = -1.2 * (fontSize - 2); in a top
corner line1 comes first at dy = 1.2 and line2 below at
dy = 1.2 * (fontSize - 2); both two-line branches render at fontSize - 2,
while a single-line label keeps the nominal size. -/
theorem C2_two_line_offsets (width height x y fontSize : ℚ)
    (ta bl : String) (l1 l2 : String) (h2 : l2 ≠ "") :
    (create_svg_corners width height x y fontSize ta bl true l1 (some l2)).texts =
      [⟨x, y, "blue", fontSize - 2, ta, bl,
        [⟨x, 1.2, l2⟩, ⟨x, -1.2 * (fontSize - 2), l1⟩]⟩] ∧
    (create_svg_corners width height x y fontSize ta bl false l1 (some l2)).texts =
      [⟨x, y, "blue", fontSize - 2, ta, bl,
        [⟨x, 1.2, l1⟩, ⟨x, 1.2 * (fontSize - 2), l2⟩]⟩] ∧
    ∀ lower : Bool,
      (create_svg_corners width height x y fontSize ta bl lower l1 none).texts =
        [⟨x, y, "blue", fontSize, ta, bl, [⟨x, 1.2, l1⟩]⟩] := by
  refine ⟨?_, ?_, fun lower => ?_⟩ <;> simp [create_svg_corners, strTruthy, h2]

/-- Witness for C2 at fontSize 28 with labels "Alpha"/"Beta" in a lower corner. -/
theorem C2_two_line_offsets_witness :
    (create_svg_corners 100 200 5 7 28 "start" "central" true "Alpha" (some "Beta")).texts =
      [⟨5, 7, "blue", (28 : ℚ) - 2, "start", "central",
        [⟨5, 1.2, "Beta"⟩, ⟨5, -1.2 * ((28 : ℚ) - 2), "Alpha"⟩]⟩] :=
  (C2_two_line_offsets 100 200 5 7 28 "start" "central" "Alpha" "Beta" (by decide)).1

/-- C3: plaque dimensioning: text width is max(len line1, len line2) * fontSize
* 0.55, text height is fontSize * numLines, padding is fontSize * 0.1 per side,
the plaque adds the padding and the artboard is the plaque scaled by 1.05 with
the plaque centered; concretely at fontSize 80 with "Broken Mountain" and
"Sisters, Kansas" the text width is 660, the plaque is 676 x 176 and the
artboard width is 676 * 1.05. -/
theorem C3_plaque_dimensions :
    (∀ (fontSize : ℚ) (l1 l2 : String),
      calculate_plaque_dimensions fontSize l1 (some l2) =
        (((max l1.length l2.length : ℕ) : ℚ) * fontSize * 0.55 + 2 * (fontSize * 0.1),
          fontSize * 2 + 2 * (fontSize * 0.1))) ∧
    (∀ (fontSize : ℚ) (l1 : String),
      calculate_plaque_dimensions fontSize l1 none =
        ((l1.length : ℚ) * fontSize * 0.55 + 2 * (fontSize * 0.1),
          fontSize * 1 + 2 * (fontSize * 0.1))) ∧
    (∀ (fontSize : ℚ) (l1 : String) (l2 : Option String),
      (create_svg_plaque fontSize l1 l2).width =
          (calculate_plaque_dimensions fontSize l1 l2).1 * 1.05 ∧
        (create_svg_plaque fontSize l1 l2).height =
          (calculate_plaque_dimensions fontSize l1 l2).2 * 1.05 ∧
        (create_svg_plaque fontSize l1 l2).rect.width =
          (calculate_plaque_dimensions fontSize l1 l2).1 ∧
        (create_svg_plaque fontSize l1 l2).rect.x =
          ((create_svg_plaque fontSize l1 l2).width -
            (calculate_plaque_dimensions fontSize l1 l2).1) / 2 ∧
        (create_svg_plaque fontSize l1 l2).rect.y =
          ((create_svg_plaque fontSize l1 l2).height -
            (calculate_plaque_dimensions fontSize l1 l2).2) / 2) ∧
    ((max ("Broken Mountain".length) ("Sisters, Kansas".length) : ℚ) * 80 * 0.55 = 660 ∧
      calculate_plaque_dimensions 80 "Broken Mountain" (some "Sisters, Kansas") = (676, 176) ∧
      (create_svg_plaque 80 "Broken Mountain" (some "Sisters, Kansas")).width = 676 * 1.05) := by
  refine ⟨fun fontSize l1 l2 => rfl, fun fontSize l1 => by simp [calculate_plaque_dimensions],
    fun fontSize l1 l2 => ⟨rfl, rfl, rfl, rfl, rfl⟩, ?_, ?_, ?_⟩
  · rw [show ("Broken Mountain".length) = 15 from rfl,
      show ("Sisters, Kansas".length) = 15 from rfl]
    norm_num
  · simp [calculate_plaque_dimensions]
    rw [show ("Broken Mountain".length) = 15 from rfl,
      show ("Sisters, Kansas".length) = 15 from rfl]
    norm_num
  · simp [create_svg_plaque, calculate_plaque_dimensions]
    rw [show ("Broken Mountain".length) = 15 from rfl,
      show ("Sisters, Kansas".length) = 15 from rfl]
    norm_num

/-- C4: plaque text vertical placement: with two lines the baseline y is
plaqueY + 0.85 * (plaqueHeight/2 - yOff * fontSize) with yOff 0.5 when line2
has descenders and 0.45 otherwise, line1 at dy = 1.2 and line2 at
dy = 1 * fontSize; with one line the y is plaqueY + 0.85 * (plaqueHeight/2 +
yOff * fontSize) with yOff 0.05 for descenders and 0.1 otherwise; the nominal
font size is used unreduced. -/
theorem C4_plaque_text_y (fontSize : ℚ) (l1 l2 : String) (h2 : l2 ≠ "") :
    (create_svg_plaque fontSize l1 (some l2)).texts =
      [{ x := (create_svg_plaque fontSize l1 (some l2)).rect.x +
            (calculate_plaque_dimensions fontSize l1 (some l2)).1 / 2,
         y := (create_svg_plaque fontSize l1 (some l2)).rect.y +
            0.85 * ((calculate_plaque_dimensions fontSize l1 (some l2)).2 / 2 -
              (if has_descenders l2 then (0.5 : ℚ) else 0.45) * fontSize),
         fill := "blue", fontSize := fontSize, text_anchor := "middle",
         dominant_baseline := "middle", text := none,
         tspans := [⟨(create_svg_plaque fontSize l1 (some l2)).rect.x +
              (calculate_plaque_dimensions fontSize l1 (some l2)).1 / 2, 1.2, l1⟩,
            ⟨(create_svg_plaque fontSize l1 (some l2)).rect.x +
              (calculate_plaque_dimensions fontSize l1 (some l2)).1 / 2,
              1 * fontSize, l2⟩] }] ∧
    (create_svg_plaque fontSize l1 none).texts =
      [{ x := (create_svg_plaque fontSize l1 none).rect.x +
            (calculate_plaque_dimensions fontSize l1 none).1 / 2,
         y := (create_svg_plaque fontSize l1 none).rect.y +
            0.85 * ((calculate_plaque_dimensions fontSize l1 none).2 / 2 +
              (if has_descenders l1 then (0.05 : ℚ) else 0.1) * fontSize),
         fill := "blue", fontSize := fontSize, text_anchor := "middle",
         dominant_baseline := "middle", text := some l1, tspans := [] }] := by
  have ht : strTruthy (some l2) = true := by simp [strTruthy, h2]
  constructor
  · cases hd : has_descenders l2 <;> simp [create_svg_plaque, ht, hd]
  · cases hd : has_descenders l1 <;> simp [create_svg_plaque, strTruthy, hd]

/-- Witness for C4: the two-line plaque for "Broken Mountain" / "Sisters,
Kansas" at fontSize 80 places its baseline per the no-descender offset 0.45. -/
theorem C4_plaque_text_y_witness :
    (create_svg_plaque 80 "Broken Mountain" (some "Sisters, Kansas")).texts.map
        (fun t => t.y) =
      [(create_svg_plaque 80 "Broken Mountain" (some "Sisters, Kansas")).rect.y +
        0.85 * ((calculate_plaque_dimensions 80 "Broken Mountain"
            (some "Sisters, Kansas")).2 / 2 -
          (if has_descenders "Sisters, Kansas" then (0.5 : ℚ) else 0.45) * 80)] := by
  rw [(C4_plaque_text_y 80 "Broken Mountain" "Sisters, Kansas" (by decide)).1]
  simp

/-- C5 counterexample: at rows = columns = 1 on the 6x8 portrait input the
grid engine's text element has dominant baseline "text-top" while the corner
engine's has "hanging", so the two outputs are not identical. -/
theorem C5_grid_1x1_counterexample :
    (writeSvgGrid 1 1 139.7 203.2 28 "Alabama" none 0.12 0.12 .TopLeft).map
        (fun g => g.texts.map (fun t => t.dominant_baseline)) = some ["text-top"] ∧
    (writeSvgCorner 139.7 203.2 0.12 0.12 28 "Alabama" none .TopLeft).texts.map
        (fun t => t.dominant_baseline) = ["hanging"] := by
  constructor
  · simp [writeSvgGrid, gridCallArgs, create_svg_corners_grid, cellPairs, gridCellsFrom,
      colorArray, gridCellText, strTruthy, List.range_succ]
  · simp [writeSvgCorner, cornerCallArgs, create_svg_corners, strTruthy]

/-- C5 (amended): with rows = columns = 1 the grid engine agrees with the
corner engine on canvas size, anchor point, text anchor and lower-corner
flag, but its dominant baseline is "text-top"/"text-bottom" instead of
"hanging"/"central", and it never applies the two-line font-size reduction:
the emitted cell renders and spaces at the nominal font size. -/
theorem C5_grid_1x1_amended (width height xFrac yFrac fontSize : ℚ)
    (l1 : String) (l2 : Option String) (v : CornerVariant) :
    (gridCallArgs width height xFrac yFrac v).x =
      (cornerCallArgs width height xFrac yFrac v).x ∧
    (gridCallArgs width height xFrac yFrac v).y =
      (cornerCallArgs width height xFrac yFrac v).y ∧
    (gridCallArgs width height xFrac yFrac v).text_anchor =
      (cornerCallArgs width height xFrac yFrac v).text_anchor ∧
    (gridCallArgs width height xFrac yFrac v).lower_corner =
      (cornerCallArgs width height xFrac yFrac v).lower_corner ∧
    (gridCallArgs width height xFrac yFrac v).dominant_baseline =
      (if (cornerCallArgs width height xFrac yFrac v).lower_corner then "text-bottom"
       else "text-top") ∧
    writeSvgGrid 1 1 width height fontSize l1 l2 xFrac yFrac v =
      some { width := width, height := height,
             rect := ⟨0, 0, width, height, "white", "red"⟩,
             texts := [gridCellText (gridCallArgs width height xFrac yFrac v).x
               (gridCallArgs width height xFrac yFrac v).y fontSize
               (gridCallArgs width height xFrac yFrac v).text_anchor
               (gridCallArgs width height xFrac yFrac v).dominant_baseline
               (gridCallArgs width height xFrac yFrac v).lower_corner l1 l2 "#0000FF"] } ∧
    (gridCellText (gridCallArgs width height xFrac yFrac v).x
       (gridCallArgs width height xFrac yFrac v).y fontSize
       (gridCallArgs width height xFrac yFrac v).text_anchor
       (gridCallArgs width height xFrac yFrac v).dominant_baseline
       (gridCallArgs width height xFrac yFrac v).lower_corner l1 l2 "#0000FF").fontSize =
      fontSize := by
  cases v <;> cases hb : strTruthy l2 <;>
    simp [gridCallArgs, cornerCallArgs, writeSvgGrid, create_svg_corners_grid, cellPairs,
      gridCellsFrom, colorArray, gridCellText, hb, List.range_succ]

/-- C6: the running palette index is not reduced mod 3: a 2 x 2 grid reaches
colorIndex 3 on its 4th cell and the lookup colorArray[3] is out of range
(the IndexError, modelled as none), while 3 cells still succeed. -/
theorem C6_palette_overflow :
    create_svg_corners_grid 2 2 100 100 10 10 28 "start" "text-top" false "A" none = none ∧
    colorArray.get? 3 = none ∧
    (create_svg_corners_grid 3 1 100 100 10 10 28 "start" "text-top" false "A" none).isSome
      = true := by
  refine ⟨?_, rfl, ?_⟩ <;>
    simp [create_svg_corners_grid, cellPairs, gridCellsFrom, colorArray, List.range_succ]

/-- C7 counterexample: a call with negative width and height, an empty
label_line1 and an inset fraction of 2 is not rejected: the corner engine
returns a normal document in which the invalid values are used unchanged. -/
theorem C7_no_validation_counterexample :
    writeSvgCorner (-1) (-2) 2 2 28 "" none .TopLeft =
      { width := -1, height := -2,
        rect := ⟨0, 0, -1, -2, "white", "red"⟩,
        texts := [⟨-4, -4, "blue", 28, "start", "hanging", [⟨-4, 1.2, ""⟩]⟩] } := by
  simp [writeSvgCorner, cornerCallArgs, create_svg_corners, strTruthy]
  norm_num

/-- C7 (amended): the layout operations perform no input validation: even
with a non-positive dimension, an empty required label or an out-of-range
fraction the corner engine returns a normal document whose geometry uses the
raw values unchanged, and the plaque engine computes a degenerate plaque
from the empty label instead of erroring. -/
theorem C7_no_validation (width height xFrac yFrac fontSize : ℚ)
    (l2 : Option String) (v : CornerVariant)
    (hinvalid : width ≤ 0 ∨ height ≤ 0 ∨ xFrac < 0 ∨ 1 < xFrac) :
    (writeSvgCorner width height xFrac yFrac fontSize "" l2 v).width = width ∧
    (writeSvgCorner width height xFrac yFrac fontSize "" l2 v).height = height ∧
    (writeSvgCorner width height xFrac yFrac fontSize "" l2 v).texts.map
        (fun t => (t.x, t.y)) =
      [((cornerCallArgs width height xFrac yFrac v).x,
        (cornerCallArgs width height xFrac yFrac v).y)] ∧
    calculate_plaque_dimensions fontSize "" none =
      (2 * (fontSize * 0.1), fontSize + 2 * (fontSize * 0.1)) := by
  refine ⟨?_, ?_, ?_, ?_⟩
  · cases v <;> cases hb : strTruthy l2 <;>
      simp [writeSvgCorner, cornerCallArgs, create_svg_corners, hb]
  · cases v <;> cases hb : strTruthy l2 <;>
      simp [writeSvgCorner, cornerCallArgs, create_svg_corners, hb]
  · cases v <;> cases hb : strTruthy l2 <;>
      simp [writeSvgCorner, cornerCallArgs, create_svg_corners, hb]
  · simp [calculate_plaque_dimensions]

/-- Witness for C7: width -3 is non-positive, yet the top-right document is
produced normally with canvas width -3. -/
theorem C7_no_validation_witness :
    ((-3 : ℚ) ≤ 0 ∨ (4 : ℚ) ≤ 0 ∨ (2 : ℚ) < 0 ∨ (1 : ℚ) < 2) ∧
    (writeSvgCorner (-3) 4 2 2 28 "" none .TopRight).width = -3 := by
  have h : (-3 : ℚ) ≤ 0 ∨ (4 : ℚ) ≤ 0 ∨ (2 : ℚ) < 0 ∨ (1 : ℚ) < 2 := by norm_num
  exact ⟨h, (C7_no_validation (-3) 4 2 2 28 none .TopRight h).1⟩

/-- C8: the end-to-end top-left scenario: width 139.7, height 203.2, both
fractions 0.12, fontSize 28, single-line label "Alabama" gives the anchor
(16.764, 16.764) = min(139.7, 203.2) * 0.12, text anchor "start", baseline
"hanging" and a single tspan at dy = 1.2 with text "Alabama". -/
theorem C8_topleft_alabama :
    writeSvgCorner 139.7 203.2 0.12 0.12 28 "Alabama" none .TopLeft =
      { width := 139.7, height := 203.2,
        rect := ⟨0, 0, 139.7, 203.2, "white", "red"⟩,
        texts := [⟨16.764, 16.764, "blue", 28, "start", "hanging",
          [⟨16.764, 1.2, "Alabama"⟩]⟩] } ∧
    (16.764 : ℚ) = min (139.7 : ℚ) 203.2 * 0.12 := by
  constructor
  · simp [writeSvgCorner, cornerCallArgs, create_svg_corners, strTruthy]
    norm_num
  · rw [min_def]
    norm_num

/-- C9: has_descenders is true exactly when the string contains one of the
characters g, j, p, q, y; "Sisters, Kansas" has none, "Goopy" has some. -/
theorem C9_has_descenders :
    (∀ s : String, has_descenders s = true ↔
      ∃ c ∈ s.data, c ∈ (['g', 'j', 'p', 'q', 'y'] : List Char)) ∧
    has_descenders "Sisters, Kansas" = false ∧
    has_descenders "Goopy" = true := by
  refine ⟨fun s => ?_, by decide, by decide⟩
  simp [has_descenders, descender_characters, List.any_eq_true]

/-- C10: every text element the plaque engine emits is horizontally centered:
its x is plaqueX + plaqueWidth / 2, its text anchor is "middle", and each of
its tspans repeats the same x. -/
theorem C10_plaque_text_centered (fontSize : ℚ) (l1 : String) (l2 : Option String) :
    ∀ t ∈ (create_svg_plaque fontSize l1 l2).texts,
      t.x = (create_svg_plaque fontSize l1 l2).rect.x +
          (calculate_plaque_dimensions fontSize l1 l2).1 / 2 ∧
      t.text_anchor = "middle" ∧
      ∀ sp ∈ t.tspans, sp.x = t.x := by
  intro t ht
  cases hb : strTruthy l2 <;>
    · simp [create_svg_plaque, hb] at ht
      subst ht
      simp [create_svg_plaque, hb]

/-- Witness for C10: the single text element of the "Alabama" plaque at
fontSize 80 is centered with anchor "middle". -/
theorem C10_plaque_text_centered_witness :
    (⟨170.1, 50, "blue", 80, "middle", "middle", some "Alabama", []⟩ :
        PlaqueGenerator.PTextElem).x =
        (create_svg_plaque 80 "Alabama" none).rect.x +
          (calculate_plaque_dimensions 80 "Alabama" none).1 / 2 ∧
    (⟨170.1, 50, "blue", 80, "middle", "middle", some "Alabama", []⟩ :
        PlaqueGenerator.PTextElem).text_anchor = "middle" := by
  have hm : (⟨170.1, 50, "blue", 80, "middle", "middle", some "Alabama", []⟩ :
      PlaqueGenerator.PTextElem) ∈ (create_svg_plaque 80 "Alabama" none).texts := by
    have h : (create_svg_plaque 80 "Alabama" none).texts =
        [⟨170.1, 50, "blue", 80, "middle", "middle", some "Alabama", []⟩] := by
      simp [create_svg_plaque, calculate_plaque_dimensions, has_descenders,
        descender_characters, strTruthy]
      rw [show ("Alabama".length) = 7 from rfl]
      norm_num
    rw [h]
    exact List.mem_singleton.mpr rfl
  have h := C10_plaque_text_centered 80 "Alabama" none _ hm
  exact ⟨h.1, h.2.1⟩

end LaserArtboard
